import Mathlib

/-
  Verification development for the lake-basin hydraulic core
  (utils/math.ts and types.ts of the repository), embedded over the
  rationals.  Pure functions of the source are translated one-to-one;
  machine floats are modelled as exact rationals.  The JavaScript
  primitives Math.max, Math.min and Math.abs are embedded as explicit
  comparisons, with bridge lemmas to the Mathlib forms.
-/

/-- JavaScript Math.max on finite numbers. -/
def jsMax (a b : ℚ) : ℚ := if a ≤ b then b else a

/-- JavaScript Math.min on finite numbers. -/
def jsMin (a b : ℚ) : ℚ := if a ≤ b then a else b

/-- JavaScript Math.abs on finite numbers. -/
def jsAbs (a : ℚ) : ℚ := if a < 0 then -a else a

/-- JavaScript Math.round for finite inputs: round half toward positive
infinity. -/
def jsRound (x : ℚ) : ℤ :=
  ⌊x + 1 / 2⌋

/-- Simulation statistics record, embedded from the TypeScript interface
SimulationStats.  The estimatedYear field is optional in the interface,
hence an Option here. -/
structure SimulationStats where
  waterLevel : ℚ
  surfaceArea : ℚ
  volume : ℚ
  concentration : ℚ
  estimatedYear : Option ℤ

/-- Result record of processRawDemData: normalized grid, output
dimensions, absolute minimum elevation and relative height range. -/
structure DemResult where
  data : List ℚ
  width : ℕ
  height : ℕ
  minHeight : ℚ
  maxHeight : ℚ

/-- Polynomial constant C4 of the area model (from utils/math.ts). -/
def C4 : ℚ := -10.984357780264

/-- Polynomial constant C3 of the area model (from utils/math.ts). -/
def C3 : ℚ := 191820.49752582

/-- Polynomial constant C2 of the area model (from utils/math.ts). -/
def C2 : ℚ := -1256158182.19156

/-- Polynomial constant C1 of the area model (from utils/math.ts). -/
def C1 : ℚ := 3656024105511.9

/-- Polynomial constant C0 of the area model (from utils/math.ts). -/
def C0 : ℚ := -3990277863318550

/-- Slope of the linear year-area calibration (from utils/math.ts). -/
def YEAR_SLOPE : ℚ := 0.7903

/-- Intercept of the linear year-area calibration (from utils/math.ts). -/
def YEAR_INTERCEPT : ℚ := -1483.3

/-- The raw quartic of the area model, before the clamp to zero.
This names the sum term4 + term3 + term2 + term1 + term0 computed inside
calculatePolynomialArea in the source. -/
def areaQuartic (x : ℚ) : ℚ :=
  C4 * x ^ 4 + C3 * x ^ 3 + C2 * x ^ 2 + C1 * x + C0

/-- Embeds calculatePolynomialArea: area in square meters at absolute
elevation x, clamped to be non-negative. -/
def calculatePolynomialArea (x : ℚ) : ℚ :=
  jsMax 0 (areaQuartic x)

/-- Embeds calculateAreaIntegral: the antiderivative of the area quartic
obtained term-by-term by the power rule. -/
def calculateAreaIntegral (x : ℚ) : ℚ :=
  (C4 / 5) * x ^ 5 + (C3 / 4) * x ^ 4 + (C2 / 3) * x ^ 3 + (C1 / 2) * x ^ 2 + C0 * x

/-- Embeds calculateYearFromArea: inverts the linear year-area model,
input in square kilometers. -/
def calculateYearFromArea (areaKm2 : ℚ) : ℚ :=
  (areaKm2 - YEAR_INTERCEPT) / YEAR_SLOPE

/-- The body of the for-loop of getElevationFromYear, with the iteration
budget as explicit fuel.  Fuel 0 corresponds to loop exhaustion, where the
source returns the midpoint of the remaining bracket.  The midpoint
(low + high) / 2 is the mid variable of the source; its area is compared
with the target under the 1.0 square-meter tolerance epsilon. -/
def searchLoop : ℕ → ℚ → ℚ → ℚ → ℚ
  | 0, low, high, _ => (low + high) / 2
  | n + 1, low, high, target =>
    if jsAbs (calculatePolynomialArea ((low + high) / 2) - target) < 1 then
      (low + high) / 2
    else if calculatePolynomialArea ((low + high) / 2) < target then
      searchLoop n ((low + high) / 2) high target
    else
      searchLoop n low ((low + high) / 2) target

/-- Embeds getElevationFromYear: derives the target area from the linear
year model, clamps it at zero, converts to square meters, short-circuits
to the lower bound 4304 when the target is at most one square meter, and
otherwise runs the 64-iteration binary search on [4304, 4450]. -/
def getElevationFromYear (year : ℚ) : ℚ :=
  let targetAreaKm2 := YEAR_SLOPE * year + YEAR_INTERCEPT
  let targetAreaM2 := jsMax 0 (targetAreaKm2 * 1000000)
  if targetAreaM2 ≤ 1 then 4304 else searchLoop 64 4304 4450 targetAreaM2

/-- Embeds calculateHydraulics: area from the quartic, volume as the
definite integral of the area from the lower limit 4304 (zero at or below
the limit, clamped non-negative), concentration guarded by the 0.001
cubic-meter volume floor, and the estimated year always computed from the
area by the linear calibration. -/
def calculateHydraulics (absoluteElevation substanceMassTons : ℚ) : SimulationStats :=
  let surfaceAreaM2 := calculatePolynomialArea absoluteElevation
  let volumeRaw : ℚ :=
    if 4304 < absoluteElevation then
      calculateAreaIntegral absoluteElevation - calculateAreaIntegral 4304
    else 0
  let volumeM3 := jsMax 0 volumeRaw
  let concentration : ℚ :=
    if 0.001 < volumeM3 then substanceMassTons * 1000000 / volumeM3 else 0
  let surfaceAreaKm2 := surfaceAreaM2 / 1000000
  let estimatedYear := jsRound (calculateYearFromArea surfaceAreaKm2)
  { waterLevel := absoluteElevation
    surfaceArea := surfaceAreaM2
    volume := volumeM3
    concentration := concentration
    estimatedYear := some estimatedYear }

/-- Modelled from the spec: the source has no standalone volumeBetween
function (only its specialization inside calculateHydraulics with the
lower limit 4304); section 4.3 of the spec defines
volumeBetween(low, high) = max(0, F(high) - F(low)) for the
antiderivative F of the area polynomial. -/
def volumeBetween (low high : ℚ) : ℚ :=
  jsMax 0 (calculateAreaIntegral high - calculateAreaIntegral low)

/-- The derivative cubic of the area quartic, used to certify monotonicity
bounds on the calibration subdomain. -/
def areaDeriv (x : ℚ) : ℚ := 4 * C4 * x ^ 3 + 3 * C3 * x ^ 2 + 2 * C2 * x + C1

/-- Binary search loop exactly as the specification words it: at most the
given number of iterations; the midpoint is returned as soon as the area
at the midpoint is within 1.0 square meter of the target; otherwise the
bracket is narrowed at the midpoint according to the comparison of areas;
on loop exhaustion the midpoint of the remaining bracket is returned. -/
def searchLoopSpec : ℕ → ℚ → ℚ → ℚ → ℚ
  | 0, low, high, _ => (low + high) / 2
  | n + 1, low, high, target =>
    if jsAbs (calculatePolynomialArea ((low + high) / 2) - target) < 1 then
      (low + high) / 2
    else if calculatePolynomialArea ((low + high) / 2) < target then
      searchLoopSpec n ((low + high) / 2) high target
    else
      searchLoopSpec n low ((low + high) / 2) target

/-- The elevation-from-year algorithm as the claim words it: the target
area from the linear year model is floored at zero and then converted
from square kilometers to square meters; the lower domain bound 4304 is
returned directly when the target is at most one square meter; otherwise
the bounded binary search runs over [4304, 4450] for at most 64
iterations. -/
def getElevationFromYearSpec (year : ℚ) : ℚ :=
  if jsMax 0 (YEAR_SLOPE * year + YEAR_INTERCEPT) * 1000000 ≤ 1 then 4304
  else searchLoopSpec 64 4304 4450 (jsMax 0 (YEAR_SLOPE * year + YEAR_INTERCEPT) * 1000000)

/-- Downsampling scale factor of processRawDemData: maxDim over
targetMaxSize when the larger input dimension exceeds targetMaxSize,
otherwise one. -/
def demScale (origWidth origHeight targetMaxSize : ℕ) : ℚ :=
  if targetMaxSize < max origWidth origHeight then
    ((max origWidth origHeight : ℕ) : ℚ) / (targetMaxSize : ℚ)
  else 1

/-- One nearest-neighbor sample of the first pass of processRawDemData:
source coordinates floor(x * scale) and floor(y * scale), clamped into
bounds (Int.toNat performs the clamp to zero of the source), fetched from
the row-major raw array, and filtered to none when the value is no-data
(NaN is modelled as none in the input; out-of-range means below -12000 or
above 12000).  Out-of-bounds reads give undefined in JavaScript, which the
no-data filter also rejects, hence the none default. -/
def demSample (rawData : List (Option ℚ)) (origWidth origHeight : ℕ) (scale : ℚ)
    (x y : ℕ) : Option ℚ :=
  let safeX := min (⌊(x : ℚ) * scale⌋).toNat (origWidth - 1)
  let safeY := min (⌊(y : ℚ) * scale⌋).toNat (origHeight - 1)
  match rawData.getD (safeY * origWidth + safeX) none with
  | none => none
  | some v => if v < -12000 ∨ 12000 < v then none else some v

/-- Output grid width of processRawDemData. -/
def demNewWidth (origWidth origHeight targetMaxSize : ℕ) : ℕ :=
  (⌊(origWidth : ℚ) / demScale origWidth origHeight targetMaxSize⌋).toNat

/-- Output grid height of processRawDemData. -/
def demNewHeight (origWidth origHeight targetMaxSize : ℕ) : ℕ :=
  (⌊(origHeight : ℚ) / demScale origWidth origHeight targetMaxSize⌋).toNat

/-- The first pass of processRawDemData: the downsampled row-major grid of
filtered samples, with none marking the cells stored as NaN by the
source. -/
def demSampled (rawData : List (Option ℚ)) (origWidth origHeight targetMaxSize : ℕ) :
    List (Option ℚ) :=
  (List.range (demNewHeight origWidth origHeight targetMaxSize)).flatMap fun y =>
    (List.range (demNewWidth origWidth origHeight targetMaxSize)).map fun x =>
      demSample rawData origWidth origHeight (demScale origWidth origHeight targetMaxSize) x y

/-- One step of the running min-max tracking of the first pass: an invalid
sample leaves the accumulator unchanged, a valid sample initializes or
updates the pair with the comparisons of the source. -/
def demStep (acc : Option (ℚ × ℚ)) (o : Option ℚ) : Option (ℚ × ℚ) :=
  match o with
  | none => acc
  | some v =>
    match acc with
    | none => some (v, v)
    | some (m, M) => some ((if v < m then v else m), (if M < v then v else M))

/-- The running minimum over valid samples, with the fallback 0 of the
source when no valid sample exists (minVal still Infinity). -/
def demMin (rawData : List (Option ℚ)) (origWidth origHeight targetMaxSize : ℕ) : ℚ :=
  match (demSampled rawData origWidth origHeight targetMaxSize).foldl demStep none with
  | none => 0
  | some p => p.1

/-- The running maximum over valid samples, with the fallback 10 of the
source when no valid sample exists. -/
def demMaxVal (rawData : List (Option ℚ)) (origWidth origHeight targetMaxSize : ℕ) : ℚ :=
  match (demSampled rawData origWidth origHeight targetMaxSize).foldl demStep none with
  | none => 10
  | some p => p.2

/-- Embeds processRawDemData: nearest-neighbor downsampling, running
min-max over valid samples with the degenerate fallback range [0, 10],
then the second pass filling every invalid cell with 0 and shifting every
valid cell down by the running minimum.  minHeight is the absolute
elevation of the lowest valid point and maxHeight the relative range. -/
def processRawDemData (rawData : List (Option ℚ)) (origWidth origHeight : ℕ)
    (targetMaxSize : ℕ) : DemResult :=
  { data := (demSampled rawData origWidth origHeight targetMaxSize).map fun o =>
      match o with
      | none => 0
      | some v => v - demMin rawData origWidth origHeight targetMaxSize
    width := demNewWidth origWidth origHeight targetMaxSize
    height := demNewHeight origWidth origHeight targetMaxSize
    minHeight := demMin rawData origWidth origHeight targetMaxSize
    maxHeight := demMaxVal rawData origWidth origHeight targetMaxSize -
      demMin rawData origWidth origHeight targetMaxSize }

/-- A raw raster cell is no-data when it is NaN (modelled as none) or its
value lies outside [-12000, 12000]. -/
def isNoData : Option ℚ → Prop
  | none => True
  | some v => v < -12000 ∨ 12000 < v

/-- Embeds the lerp helper of the source (parameters start and end). -/
def lerp (start stop t : ℚ) : ℚ := start * (1 - t) + stop * t

/-- Sand anchor color of the source. -/
def SAND : ℚ × ℚ × ℚ := (0.82, 0.78, 0.55)

/-- Grass anchor color of the source. -/
def GRASS : ℚ × ℚ × ℚ := (0.25, 0.55, 0.2)

/-- Rock anchor color of the source. -/
def ROCK : ℚ × ℚ × ℚ := (0.45, 0.42, 0.38)

/-- Snow anchor color of the source. -/
def SNOW : ℚ × ℚ × ℚ := (0.95, 0.95, 1)

/-- Embeds getColorByHeight over exact rationals: clamps the normalized
height into [0, 1] and blends across the three bands sand to grass, grass
to rock, rock to snow.  The unused DEEP_WATER constant of the source is
omitted.  Rational division idealizes the float division and is faithful
only for maxHeight nonzero; the variant getColorByHeightF below models the
JavaScript division-by-zero paths (NaN and the infinities) and is proved
to agree with this function whenever maxHeight is nonzero. -/
def getColorByHeight (height maxHeight : ℚ) : ℚ × ℚ × ℚ :=
  let t := jsMin (jsMax (height / maxHeight) 0) 1
  if t < 0.1 then
    let localT := t / 0.1
    (lerp SAND.1 GRASS.1 localT, lerp SAND.2.1 GRASS.2.1 localT, lerp SAND.2.2 GRASS.2.2 localT)
  else if t < 0.5 then
    let localT := (t - 0.1) / 0.4
    (lerp GRASS.1 ROCK.1 localT, lerp GRASS.2.1 ROCK.2.1 localT, lerp GRASS.2.2 ROCK.2.2 localT)
  else
    let localT := (t - 0.5) / 0.5
    (lerp ROCK.1 SNOW.1 localT, lerp ROCK.2.1 SNOW.2.1 localT, lerp ROCK.2.2 SNOW.2.2 localT)

/-- JavaScript number values reachable in the color path: NaN, the two
infinities, and finite numbers idealized as rationals. -/
inductive JsFloat where
  | nan : JsFloat
  | inf : JsFloat
  | ninf : JsFloat
  | fin : ℚ → JsFloat

/-- IEEE division of two finite numbers: the exact quotient when the
divisor is nonzero, otherwise NaN for 0/0 and a signed infinity for x/0
with x nonzero.  Overflow of a huge finite quotient to infinity is not
modelled; the clamp downstream sends an infinity and a large finite value
to the same color, so this does not affect the unit-interval question. -/
def jsDivF (a b : ℚ) : JsFloat :=
  if b = 0 then
    if a = 0 then JsFloat.nan
    else if 0 < a then JsFloat.inf
    else JsFloat.ninf
  else JsFloat.fin (a / b)

/-- Math.max of a JavaScript value and a finite constant: NaN propagates,
otherwise the usual maximum. -/
def jsMaxF (a : JsFloat) (b : ℚ) : JsFloat :=
  match a with
  | JsFloat.nan => JsFloat.nan
  | JsFloat.inf => JsFloat.inf
  | JsFloat.ninf => JsFloat.fin b
  | JsFloat.fin x => JsFloat.fin (jsMax x b)

/-- Math.min of a JavaScript value and a finite constant: NaN propagates,
otherwise the usual minimum. -/
def jsMinF (a : JsFloat) (b : ℚ) : JsFloat :=
  match a with
  | JsFloat.nan => JsFloat.nan
  | JsFloat.inf => JsFloat.fin b
  | JsFloat.ninf => JsFloat.ninf
  | JsFloat.fin x => JsFloat.fin (jsMin x b)

/-- The comparison a < c of a JavaScript value against a finite constant:
false when a is NaN, as in JavaScript. -/
def jsLtF (a : JsFloat) (c : ℚ) : Bool :=
  match a with
  | JsFloat.nan => false
  | JsFloat.inf => false
  | JsFloat.ninf => true
  | JsFloat.fin x => decide (x < c)

/-- Subtraction of a finite constant from a JavaScript value. -/
def jsSubF (a : JsFloat) (c : ℚ) : JsFloat :=
  match a with
  | JsFloat.nan => JsFloat.nan
  | JsFloat.inf => JsFloat.inf
  | JsFloat.ninf => JsFloat.ninf
  | JsFloat.fin x => JsFloat.fin (x - c)

/-- Division of a JavaScript value by a positive finite constant (the band
widths 0.1, 0.4 and 0.5). -/
def jsDivPosF (a : JsFloat) (c : ℚ) : JsFloat :=
  match a with
  | JsFloat.nan => JsFloat.nan
  | JsFloat.inf => JsFloat.inf
  | JsFloat.ninf => JsFloat.ninf
  | JsFloat.fin x => JsFloat.fin (x / c)

/-- The lerp helper applied to a JavaScript blend factor with the strictly
positive anchor components of this file: NaN propagates; an infinite
factor also gives NaN, from the indeterminate sum of two opposite
infinities in start * (1 - t) + stop * t. -/
def lerpF (start stop : ℚ) (t : JsFloat) : JsFloat :=
  match t with
  | JsFloat.fin x => JsFloat.fin (lerp start stop x)
  | _ => JsFloat.nan

/-- Embeds getColorByHeight under JavaScript float semantics for the
division, the clamp, the comparisons and the blends.  NaN from 0/0
propagates through Math.max and Math.min, makes both band comparisons
false, and reaches the rock-to-snow blend as NaN.  The local variables t
and localT of the source are inlined. -/
def getColorByHeightF (height maxHeight : ℚ) : JsFloat × JsFloat × JsFloat :=
  if jsLtF (jsMinF (jsMaxF (jsDivF height maxHeight) 0) 1) 0.1 then
    (lerpF SAND.1 GRASS.1 (jsDivPosF (jsMinF (jsMaxF (jsDivF height maxHeight) 0) 1) 0.1),
     lerpF SAND.2.1 GRASS.2.1 (jsDivPosF (jsMinF (jsMaxF (jsDivF height maxHeight) 0) 1) 0.1),
     lerpF SAND.2.2 GRASS.2.2 (jsDivPosF (jsMinF (jsMaxF (jsDivF height maxHeight) 0) 1) 0.1))
  else if jsLtF (jsMinF (jsMaxF (jsDivF height maxHeight) 0) 1) 0.5 then
    (lerpF GRASS.1 ROCK.1
       (jsDivPosF (jsSubF (jsMinF (jsMaxF (jsDivF height maxHeight) 0) 1) 0.1) 0.4),
     lerpF GRASS.2.1 ROCK.2.1
       (jsDivPosF (jsSubF (jsMinF (jsMaxF (jsDivF height maxHeight) 0) 1) 0.1) 0.4),
     lerpF GRASS.2.2 ROCK.2.2
       (jsDivPosF (jsSubF (jsMinF (jsMaxF (jsDivF height maxHeight) 0) 1) 0.1) 0.4))
  else
    (lerpF ROCK.1 SNOW.1
       (jsDivPosF (jsSubF (jsMinF (jsMaxF (jsDivF height maxHeight) 0) 1) 0.5) 0.5),
     lerpF ROCK.2.1 SNOW.2.1
       (jsDivPosF (jsSubF (jsMinF (jsMaxF (jsDivF height maxHeight) 0) 1) 0.5) 0.5),
     lerpF ROCK.2.2 SNOW.2.2
       (jsDivPosF (jsSubF (jsMinF (jsMaxF (jsDivF height maxHeight) 0) 1) 0.5) 0.5))

/-- A JavaScript color component lies in the unit interval: it is a
finite value between 0 and 1 (NaN and the infinities do not qualify). -/
def jsInUnit (a : JsFloat) : Prop :=
  ∃ v : ℚ, a = JsFloat.fin v ∧ 0 ≤ v ∧ v ≤ 1

theorem jsMax_eq (a b : ℚ) : jsMax a b = max a b := by
  rw [jsMax, max_def]

theorem jsMin_eq (a b : ℚ) : jsMin a b = min a b := by
  rw [jsMin, min_def]

theorem jsAbs_eq (a : ℚ) : jsAbs a = |a| := by
  unfold jsAbs
  split_ifs with h
  · exact (abs_of_neg h).symm
  · exact (abs_of_nonneg (not_lt.1 h)).symm

theorem calculateHydraulics_volume (e m : ℚ) :
    (calculateHydraulics e m).volume =
      jsMax 0 (if 4304 < e then calculateAreaIntegral e - calculateAreaIntegral 4304 else 0) :=
  rfl

theorem calculateHydraulics_concentration (e m : ℚ) :
    (calculateHydraulics e m).concentration =
      if 0.001 < (calculateHydraulics e m).volume then
        m * 1000000 / (calculateHydraulics e m).volume
      else 0 :=
  rfl

/-- C7: numeric-guard invariant.  For every elevation and every
non-negative mass, the computed area is non-negative, the volume in the
resulting sample is non-negative, the concentration is zero whenever the
volume is at or below the 0.001 cubic-meter floor, and the concentration
is non-negative. -/
theorem hydraulics_numeric_guards (e m : ℚ) (hm : 0 ≤ m) :
    0 ≤ calculatePolynomialArea e ∧
    0 ≤ (calculateHydraulics e m).volume ∧
    ((calculateHydraulics e m).volume ≤ 0.001 → (calculateHydraulics e m).concentration = 0) ∧
    0 ≤ (calculateHydraulics e m).concentration := by
  have harea : 0 ≤ calculatePolynomialArea e := by
    rw [calculatePolynomialArea, jsMax_eq]; exact le_max_left _ _
  have hvol : 0 ≤ (calculateHydraulics e m).volume := by
    rw [calculateHydraulics_volume, jsMax_eq]; exact le_max_left _ _
  refine ⟨harea, hvol, ?_, ?_⟩
  · intro hsmall
    rw [calculateHydraulics_concentration, if_neg (not_lt.2 hsmall)]
  · rw [calculateHydraulics_concentration]
    split_ifs with h
    · exact div_nonneg (mul_nonneg hm (by norm_num)) (le_trans (by norm_num) (le_of_lt h))
    · exact le_refl 0

theorem volume_at_4300_small : (calculateHydraulics 4300 0).volume ≤ 0.001 := by
  rw [calculateHydraulics_volume, if_neg (by norm_num)]
  norm_num [jsMax]

/-- Witness for C7 at elevation 4300 and mass 0, where the volume is zero
and the concentration guard returns zero. -/
theorem hydraulics_numeric_guards_witness :
    0 ≤ (0 : ℚ) ∧
    0 ≤ calculatePolynomialArea 4300 ∧
    0 ≤ (calculateHydraulics 4300 0).volume ∧
    (calculateHydraulics 4300 0).concentration = 0 ∧
    0 ≤ (calculateHydraulics 4300 0).concentration :=
  ⟨le_refl 0,
   (hydraulics_numeric_guards 4300 0 (le_refl 0)).1,
   (hydraulics_numeric_guards 4300 0 (le_refl 0)).2.1,
   (hydraulics_numeric_guards 4300 0 (le_refl 0)).2.2.1 volume_at_4300_small,
   (hydraulics_numeric_guards 4300 0 (le_refl 0)).2.2.2⟩

/-- C8: volume vanishes on the degenerate integral and at or below the
lower reference elevation 4304. -/
theorem volume_degenerate_zero (L e m : ℚ) :
    volumeBetween L L = 0 ∧
    (e ≤ 4304 → (calculateHydraulics e m).volume = 0) := by
  constructor
  · rw [volumeBetween, sub_self, jsMax_eq, max_self]
  · intro he
    rw [calculateHydraulics_volume, if_neg (not_lt.2 he), jsMax_eq, max_self]

/-- Witness for C8 at L = 5 and elevation 4300 at or below the reference. -/
theorem volume_degenerate_zero_witness :
    volumeBetween 5 5 = 0 ∧ (calculateHydraulics 4300 7).volume = 0 :=
  ⟨(volume_degenerate_zero 5 4300 7).1,
   (volume_degenerate_zero 5 4300 7).2 (by decide)⟩

/-- C1 counterexample: at absolute elevation 100 the computed surface
area is zero (hence at most zero), yet the sample returned by
calculateHydraulics carries a present estimated year, 1877. -/
theorem estimatedYear_present_at_zero_area :
    calculatePolynomialArea 100 = 0 ∧
    (calculateHydraulics 100 0).estimatedYear = some 1877 := by
  have h0 : areaQuartic 100 < 0 := by
    norm_num [areaQuartic, C4, C3, C2, C1, C0]
  have hp : calculatePolynomialArea 100 = 0 := by
    rw [calculatePolynomialArea, jsMax, if_neg (not_le.2 h0)]
  refine ⟨hp, ?_⟩
  show some (jsRound (calculateYearFromArea (calculatePolynomialArea 100 / 1000000))) = some 1877
  rw [hp]
  have : jsRound (calculateYearFromArea (0 / 1000000)) = 1877 := by
    rw [jsRound, calculateYearFromArea, YEAR_SLOPE, YEAR_INTERCEPT]
    rw [show ((0 : ℚ) / 1000000 - -1483.3) / 0.7903 + 1 / 2 = 4239129 / 2258 by norm_num]
    rw [Int.floor_eq_iff]
    norm_num
  rw [this]

/-- C1 amended: the estimated year is always present in the sample
returned by calculateHydraulics, for every elevation and mass, including
when the computed area is zero. -/
theorem estimatedYear_always_present (e m : ℚ) :
    ((calculateHydraulics e m).estimatedYear).isSome = true := by
  rfl

theorem areaDeriv_lb (x : ℚ) (h1 : 4304 ≤ x) (h2 : x ≤ 4400) : 465909 ≤ areaDeriv x := by
  rw [areaDeriv, C4, C3, C2, C1]
  rcases le_total x 4352 with h3 | h3
  · have hu : (0:ℚ) ≤ x - 4304 := by linarith
    have hw : (0:ℚ) ≤ 4352 - x := by linarith
    nlinarith [mul_nonneg (mul_nonneg hu hu) hu, mul_nonneg (mul_nonneg hu hu) hw,
               mul_nonneg (mul_nonneg hu hw) hw, mul_nonneg (mul_nonneg hw hw) hw]
  · have hu : (0:ℚ) ≤ x - 4352 := by linarith
    have hw : (0:ℚ) ≤ 4400 - x := by linarith
    nlinarith [mul_nonneg (mul_nonneg hu hu) hu, mul_nonneg (mul_nonneg hu hu) hw,
               mul_nonneg (mul_nonneg hu hw) hw, mul_nonneg (mul_nonneg hw hw) hw]

theorem areaDeriv_ub (x : ℚ) (h1 : 4304 ≤ x) (h2 : x ≤ 4400) : areaDeriv x ≤ 11308837 := by
  rw [areaDeriv, C4, C3, C2, C1]
  rcases le_total x 4352 with h3 | h3
  · have hu : (0:ℚ) ≤ x - 4304 := by linarith
    have hw : (0:ℚ) ≤ 4352 - x := by linarith
    nlinarith [mul_nonneg (mul_nonneg hu hu) hu, mul_nonneg (mul_nonneg hu hu) hw,
               mul_nonneg (mul_nonneg hu hw) hw, mul_nonneg (mul_nonneg hw hw) hw]
  · have hu : (0:ℚ) ≤ x - 4352 := by linarith
    have hw : (0:ℚ) ≤ 4400 - x := by linarith
    nlinarith [mul_nonneg (mul_nonneg hu hu) hu, mul_nonneg (mul_nonneg hu hu) hw,
               mul_nonneg (mul_nonneg hu hw) hw, mul_nonneg (mul_nonneg hw hw) hw]

theorem quartic_diff_key (x y : ℚ) :
    2 * (areaQuartic y - areaQuartic x) =
      (y - x) * (areaDeriv x + areaDeriv y - (y - x) ^ 2 * (C3 + 2 * C4 * (x + y))) := by
  rw [areaQuartic, areaQuartic, areaDeriv, areaDeriv]; ring

theorem quartic_step (x y : ℚ) (h1 : 4304 ≤ x) (hxy : x ≤ y) (h2 : y ≤ 4400)
    (hgap : y - x ≤ 16) : areaQuartic x ≤ areaQuartic y := by
  have hDx := areaDeriv_lb x h1 (by linarith)
  have hDy := areaDeriv_lb y (by linarith) h2
  have key := quartic_diff_key x y
  have hf : (y - x) ^ 2 * (C3 + 2 * C4 * (x + y)) ≤ 694784 := by
    rcases le_total 0 (C3 + 2 * C4 * (x + y)) with hf0 | hf0
    · have hsq : (y - x) ^ 2 ≤ 256 := by nlinarith
      have hfb : C3 + 2 * C4 * (x + y) ≤ 2714 := by rw [C3, C4]; nlinarith
      have := mul_le_mul hsq hfb hf0 (by norm_num : (0:ℚ) ≤ 256)
      linarith
    · have := mul_nonpos_of_nonneg_of_nonpos (sq_nonneg (y - x)) hf0
      linarith
  have hS : 0 ≤ areaDeriv x + areaDeriv y - (y - x) ^ 2 * (C3 + 2 * C4 * (x + y)) := by
    linarith
  have := mul_nonneg (by linarith : (0:ℚ) ≤ y - x) hS
  linarith

theorem quartic_mono (x y : ℚ) (h1 : 4304 ≤ x) (hxy : x ≤ y) (h2 : y ≤ 4400) :
    areaQuartic x ≤ areaQuartic y := by
  have hd0 : 0 ≤ (y - x) / 6 := by linarith
  have hd16 : (y - x) / 6 ≤ 16 := by linarith
  have s1 := quartic_step x (x + (y - x) / 6) (by linarith) (by linarith) (by linarith) (by linarith)
  have s2 := quartic_step (x + (y - x) / 6) (x + 2 * ((y - x) / 6)) (by linarith) (by linarith) (by linarith) (by linarith)
  have s3 := quartic_step (x + 2 * ((y - x) / 6)) (x + 3 * ((y - x) / 6)) (by linarith) (by linarith) (by linarith) (by linarith)
  have s4 := quartic_step (x + 3 * ((y - x) / 6)) (x + 4 * ((y - x) / 6)) (by linarith) (by linarith) (by linarith) (by linarith)
  have s5 := quartic_step (x + 4 * ((y - x) / 6)) (x + 5 * ((y - x) / 6)) (by linarith) (by linarith) (by linarith) (by linarith)
  have s6 := quartic_step (x + 5 * ((y - x) / 6)) (x + 6 * ((y - x) / 6)) (by linarith) (by linarith) (by linarith) (by linarith)
  have h6 : x + 6 * ((y - x) / 6) = y := by ring
  rw [h6] at s6
  linarith

theorem quartic_lipschitz (x y : ℚ) (h1 : 4304 ≤ x) (hxy : x ≤ y) (h2 : y ≤ 4400) :
    areaQuartic y - areaQuartic x ≤ 20000000 * (y - x) := by
  have hDx := areaDeriv_ub x h1 (by linarith)
  have hDy := areaDeriv_ub y (by linarith) h2
  have key := quartic_diff_key x y
  have hf : -13888512 ≤ (y - x) ^ 2 * (C3 + 2 * C4 * (x + y)) := by
    rcases le_total 0 (C3 + 2 * C4 * (x + y)) with hf0 | hf0
    · have := mul_nonneg (sq_nonneg (y - x)) hf0
      linarith
    · have hsq : (y - x) ^ 2 ≤ 9216 := by nlinarith
      have hfb : -(C3 + 2 * C4 * (x + y)) ≤ 1505 := by rw [C3, C4]; nlinarith
      have := mul_le_mul hsq hfb (by linarith) (by norm_num : (0:ℚ) ≤ 9216)
      nlinarith [this]
  have hS : areaDeriv x + areaDeriv y - (y - x) ^ 2 * (C3 + 2 * C4 * (x + y)) ≤ 40000000 := by
    linarith
  have hprod := mul_le_mul_of_nonneg_left hS (by linarith : (0:ℚ) ≤ y - x)
  linarith

theorem quartic_pos_at_4304 : 1 < areaQuartic 4304 := by
  norm_num [areaQuartic, C4, C3, C2, C1, C0]

theorem quartic_big_on (x : ℚ) (h1 : 4304 ≤ x) (h2 : x ≤ 4400) : 1 < areaQuartic x :=
  lt_of_lt_of_le quartic_pos_at_4304 (quartic_mono 4304 x (le_refl _) h1 h2)

theorem area_eq_quartic (x : ℚ) (h1 : 4304 ≤ x) (h2 : x ≤ 4400) :
    calculatePolynomialArea x = areaQuartic x := by
  rw [calculatePolynomialArea, jsMax,
    if_pos (le_of_lt (lt_trans one_pos (quartic_big_on x h1 h2)))]

/-- C2 counterexample: both 4400 and 4450 lie in the binary-search bracket
[4304, 4450] and 4400 is at most 4450, yet the computed area at 4400
exceeds the computed area at 4450 (the quartic peaks near 4403 and its
clamped value at 4450 is zero), so the area function is not monotonically
non-decreasing over the whole bracket. -/
theorem area_not_monotone_on_bracket :
    (4304 : ℚ) ≤ 4400 ∧ (4400 : ℚ) ≤ 4450 ∧
    ¬ calculatePolynomialArea 4400 ≤ calculatePolynomialArea 4450 := by
  have hpos : 0 < areaQuartic 4400 := by norm_num [areaQuartic, C4, C3, C2, C1, C0]
  have hneg : areaQuartic 4450 < 0 := by norm_num [areaQuartic, C4, C3, C2, C1, C0]
  have hp1 : calculatePolynomialArea 4400 = areaQuartic 4400 := by
    rw [calculatePolynomialArea, jsMax, if_pos (le_of_lt hpos)]
  have hp2 : calculatePolynomialArea 4450 = 0 := by
    rw [calculatePolynomialArea, jsMax, if_neg (not_le.2 hneg)]
  refine ⟨by norm_num, by norm_num, ?_⟩
  rw [hp1, hp2]
  exact not_le.2 hpos

/-- C2 amended: calculatePolynomialArea is monotonically non-decreasing on
the subdomain [4304, 4400] of the search bracket; on the full bracket
[4304, 4450] monotonicity fails, since the quartic peaks near elevation
4403 and the clamped area falls back to zero before 4450. -/
theorem area_monotone_on_subdomain (x y : ℚ) (h1 : 4304 ≤ x) (hxy : x ≤ y)
    (h2 : y ≤ 4400) : calculatePolynomialArea x ≤ calculatePolynomialArea y := by
  rw [calculatePolynomialArea, calculatePolynomialArea, jsMax_eq, jsMax_eq]
  exact max_le_max (le_refl 0) (quartic_mono x y h1 hxy h2)

/-- Witness for the amended C2 at the pair 4310 and 4320. -/
theorem area_monotone_on_subdomain_witness :
    (4304 : ℚ) ≤ 4310 ∧ (4310 : ℚ) ≤ 4320 ∧ (4320 : ℚ) ≤ 4400 ∧
    calculatePolynomialArea 4310 ≤ calculatePolynomialArea 4320 :=
  ⟨by decide, by decide, by decide,
   area_monotone_on_subdomain 4310 4320 (by decide) (by decide) (by decide)⟩

theorem searchLoop_close (n : ℕ) : ∀ low high t : ℚ, 4304 ≤ low → high ≤ 4400 →
    low < high → calculatePolynomialArea low < t → t ≤ calculatePolynomialArea high →
    high - low ≤ 73 * 2 ^ n / 2 ^ 63 →
    jsAbs (calculatePolynomialArea (searchLoop n low high t) - t) < 1 := by
  induction n with
  | zero =>
    intro low high t h1 h2 hlh hlow hhigh hw
    rw [searchLoop]
    have hr1 : low < (low + high) / 2 := by linarith
    have hr2 : (low + high) / 2 < high := by linarith
    have hql := area_eq_quartic low h1 (by linarith)
    have hqh := area_eq_quartic high (by linarith) h2
    have hqr := area_eq_quartic ((low + high) / 2) (by linarith) (by linarith)
    have m1 := quartic_mono low ((low + high) / 2) h1 (le_of_lt hr1) (by linarith)
    have m2 := quartic_mono ((low + high) / 2) high (by linarith) (le_of_lt hr2) h2
    have lip := quartic_lipschitz low high h1 (le_of_lt hlh) h2
    have hwsmall : 20000000 * (high - low) < 1 := by
      have hb : (20000000 : ℚ) * (high - low) ≤ 20000000 * (73 * 2 ^ 0 / 2 ^ 63) :=
        mul_le_mul_of_nonneg_left hw (by norm_num)
      have : (20000000 : ℚ) * (73 * 2 ^ 0 / 2 ^ 63) < 1 := by norm_num
      linarith
    rw [hqr, jsAbs_eq, abs_lt]
    rw [hql] at hlow
    rw [hqh] at hhigh
    constructor <;> linarith
  | succ n ih =>
    intro low high t h1 h2 hlh hlow hhigh hw
    have hsplit : (73 : ℚ) * 2 ^ (n + 1) / 2 ^ 63 = 2 * (73 * 2 ^ n / 2 ^ 63) := by
      rw [pow_succ]; ring
    rw [searchLoop]
    split_ifs with htol hlt
    · exact htol
    · exact ih ((low + high) / 2) high t (by linarith) h2 (by linarith) hlt hhigh
        (by rw [hsplit] at hw; linarith)
    · exact ih low ((low + high) / 2) t h1 (by linarith) (by linarith) hlow
        (not_lt.1 hlt) (by rw [hsplit] at hw; linarith)

theorem searchLoop_bracket (n : ℕ) : ∀ low high t : ℚ, 4304 ≤ low → low ≤ high →
    high ≤ 4450 → 4304 ≤ searchLoop n low high t ∧ searchLoop n low high t ≤ 4450 := by
  induction n with
  | zero =>
    intro low high t h1 h2 h3
    rw [searchLoop]
    constructor <;> linarith
  | succ n ih =>
    intro low high t h1 h2 h3
    rw [searchLoop]
    split_ifs with htol hlt
    · constructor <;> linarith
    · exact ih ((low + high) / 2) high t (by linarith) (by linarith) h3
    · exact ih low ((low + high) / 2) t h1 (by linarith) (by linarith)

/-- C10: for every year input, getElevationFromYear stays within the
closed bracket [4304, 4450]: the short-circuit returns the lower bound and
every midpoint the binary search can return lies inside the initial
bracket. -/
theorem getElevationFromYear_in_bracket (y : ℚ) :
    4304 ≤ getElevationFromYear y ∧ getElevationFromYear y ≤ 4450 := by
  show 4304 ≤ (if jsMax 0 ((YEAR_SLOPE * y + YEAR_INTERCEPT) * 1000000) ≤ 1 then (4304 : ℚ)
      else searchLoop 64 4304 4450 (jsMax 0 ((YEAR_SLOPE * y + YEAR_INTERCEPT) * 1000000))) ∧
    (if jsMax 0 ((YEAR_SLOPE * y + YEAR_INTERCEPT) * 1000000) ≤ 1 then (4304 : ℚ)
      else searchLoop 64 4304 4450 (jsMax 0 ((YEAR_SLOPE * y + YEAR_INTERCEPT) * 1000000))) ≤ 4450
  split_ifs with h
  · constructor <;> norm_num
  · exact searchLoop_bracket 64 4304 4450 _ (le_refl _) (by norm_num) (le_refl _)

theorem searchLoopSpec_eq (n : ℕ) : ∀ low high target : ℚ,
    searchLoopSpec n low high target = searchLoop n low high target := by
  induction n with
  | zero => intro low high target; rw [searchLoopSpec, searchLoop]
  | succ n ih =>
    intro low high target
    rw [searchLoopSpec, searchLoop]
    split_ifs <;> first | rfl | exact ih _ _ _

/-- C4: getElevationFromYear agrees pointwise with the algorithm as the
claim states it (getElevationFromYearSpec): target area from the linear
year model floored at zero and converted to square meters, short-circuit
to the lower domain bound 4304 when the target is at most one square
meter, and otherwise the bounded binary search of at most 64 iterations
that returns a midpoint within the 1.0 square-meter tolerance or the
midpoint of the remaining bracket on exhaustion; the function is total. -/
theorem getElevationFromYear_matches_spec (y : ℚ) :
    getElevationFromYear y = getElevationFromYearSpec y := by
  have hmax : jsMax 0 (YEAR_SLOPE * y + YEAR_INTERCEPT) * 1000000 =
      jsMax 0 ((YEAR_SLOPE * y + YEAR_INTERCEPT) * 1000000) := by
    rcases lt_or_le (YEAR_SLOPE * y + YEAR_INTERCEPT) 0 with h | h
    · rw [jsMax, jsMax, if_neg (not_le.2 h),
        if_neg (not_le.2 (by nlinarith : (YEAR_SLOPE * y + YEAR_INTERCEPT) * 1000000 < 0))]
      ring
    · rw [jsMax, jsMax, if_pos h, if_pos (by nlinarith : (0:ℚ) ≤ (YEAR_SLOPE * y + YEAR_INTERCEPT) * 1000000)]
  show (if jsMax 0 ((YEAR_SLOPE * y + YEAR_INTERCEPT) * 1000000) ≤ 1 then (4304 : ℚ)
      else searchLoop 64 4304 4450 (jsMax 0 ((YEAR_SLOPE * y + YEAR_INTERCEPT) * 1000000))) =
    getElevationFromYearSpec y
  rw [getElevationFromYearSpec, hmax, searchLoopSpec_eq]

/-- C3: round-trip between year and elevation.  For every year whose
implied target area lies strictly above the area at the lower domain bound
4304 and at most the area at the first probed midpoint 4377 (the practical
range of the calibration), applying calculateYearFromArea to the area in
square kilometers at getElevationFromYear of that year recovers the year
to within 1/790300, the 1.0 square-meter search tolerance propagated
through the linear year model. -/
theorem yearElevation_roundtrip (Y : ℚ)
    (hlo : calculatePolynomialArea 4304 < (YEAR_SLOPE * Y + YEAR_INTERCEPT) * 1000000)
    (hhi : (YEAR_SLOPE * Y + YEAR_INTERCEPT) * 1000000 ≤ calculatePolynomialArea 4377) :
    jsAbs (calculateYearFromArea
        (calculatePolynomialArea (getElevationFromYear Y) / 1000000) - Y) < 1 / 790300 := by
  set t := (YEAR_SLOPE * Y + YEAR_INTERCEPT) * 1000000 with ht
  have h1t : 1 < t := by
    have := quartic_pos_at_4304
    have h4304 := area_eq_quartic 4304 (le_refl _) (by norm_num)
    linarith
  have hunfold : getElevationFromYear Y = searchLoop 64 4304 4450 t := by
    show (if jsMax 0 ((YEAR_SLOPE * Y + YEAR_INTERCEPT) * 1000000) ≤ 1 then (4304 : ℚ)
        else searchLoop 64 4304 4450 (jsMax 0 ((YEAR_SLOPE * Y + YEAR_INTERCEPT) * 1000000))) =
      searchLoop 64 4304 4450 t
    have hmax : jsMax 0 ((YEAR_SLOPE * Y + YEAR_INTERCEPT) * 1000000) = t := by
      rw [jsMax, if_pos (by rw [← ht]; linarith)]
    rw [hmax, if_neg (not_le.2 h1t)]
  have hstep : searchLoop 64 4304 4450 t =
      if jsAbs (calculatePolynomialArea ((4304 + 4450) / 2) - t) < 1 then (4304 + 4450) / 2
      else if calculatePolynomialArea ((4304 + 4450) / 2) < t then
        searchLoop 63 ((4304 + 4450) / 2) 4450 t
      else searchLoop 63 4304 ((4304 + 4450) / 2) t := rfl
  have hmid : ((4304 : ℚ) + 4450) / 2 = 4377 := by norm_num
  rw [hmid] at hstep
  have hres : jsAbs (calculatePolynomialArea (searchLoop 64 4304 4450 t) - t) < 1 := by
    rw [hstep]
    split_ifs with htol hlt
    · exact htol
    · exact absurd hlt (not_lt.2 hhi)
    · refine searchLoop_close 63 4304 4377 t (le_refl _) (by norm_num) (by norm_num)
        hlo (not_lt.1 hlt) ?_
      norm_num
  rw [hunfold]
  have halg : calculateYearFromArea
      (calculatePolynomialArea (searchLoop 64 4304 4450 t) / 1000000) - Y =
      (calculatePolynomialArea (searchLoop 64 4304 4450 t) - t) / 790300 := by
    rw [calculateYearFromArea, YEAR_SLOPE, YEAR_INTERCEPT, ht, YEAR_SLOPE, YEAR_INTERCEPT]
    field_simp
    ring
  rw [halg, jsAbs_eq, abs_div, abs_of_pos (by norm_num : (0:ℚ) < 790300)]
  rw [jsAbs_eq] at hres
  rw [div_lt_div_iff_of_pos_right (by norm_num : (0:ℚ) < 790300)]
  exact hres

theorem roundtrip_lo_at_2000 :
    calculatePolynomialArea 4304 < (YEAR_SLOPE * 2000 + YEAR_INTERCEPT) * 1000000 := by
  rw [area_eq_quartic 4304 (le_refl _) (by norm_num)]
  norm_num [areaQuartic, C4, C3, C2, C1, C0, YEAR_SLOPE, YEAR_INTERCEPT]

theorem roundtrip_hi_at_2000 :
    (YEAR_SLOPE * 2000 + YEAR_INTERCEPT) * 1000000 ≤ calculatePolynomialArea 4377 := by
  rw [area_eq_quartic 4377 (by norm_num) (by norm_num)]
  norm_num [areaQuartic, C4, C3, C2, C1, C0, YEAR_SLOPE, YEAR_INTERCEPT]

/-- Witness for C3 at the year 2000, whose implied target area 97300000
square meters lies inside the practical range. -/
theorem yearElevation_roundtrip_witness :
    calculatePolynomialArea 4304 < (YEAR_SLOPE * 2000 + YEAR_INTERCEPT) * 1000000 ∧
    (YEAR_SLOPE * 2000 + YEAR_INTERCEPT) * 1000000 ≤ calculatePolynomialArea 4377 ∧
    jsAbs (calculateYearFromArea
        (calculatePolynomialArea (getElevationFromYear 2000) / 1000000) - 2000) < 1 / 790300 :=
  ⟨roundtrip_lo_at_2000, roundtrip_hi_at_2000,
   yearElevation_roundtrip 2000 roundtrip_lo_at_2000 roundtrip_hi_at_2000⟩

theorem lerp_bound (a b t : ℚ) (ha0 : 0 ≤ a) (ha1 : a ≤ 1) (hb0 : 0 ≤ b) (hb1 : b ≤ 1)
    (ht0 : 0 ≤ t) (ht1 : t ≤ 1) : 0 ≤ lerp a b t ∧ lerp a b t ≤ 1 := by
  rw [lerp]
  constructor
  · nlinarith
  · nlinarith

/-- Unit-interval bounds for the rational color function: the clamp puts
the normalized parameter into [0, 1] and each band blends anchor colors
that all lie in [0, 1].  Helper for the float-semantics claim below. -/
theorem ratColor_bounds (height maxHeight : ℚ) :
    0 ≤ (getColorByHeight height maxHeight).1 ∧ (getColorByHeight height maxHeight).1 ≤ 1 ∧
    0 ≤ (getColorByHeight height maxHeight).2.1 ∧ (getColorByHeight height maxHeight).2.1 ≤ 1 ∧
    0 ≤ (getColorByHeight height maxHeight).2.2 ∧ (getColorByHeight height maxHeight).2.2 ≤ 1 := by
  set t := jsMin (jsMax (height / maxHeight) 0) 1 with hdeft
  have ht0 : 0 ≤ t := by
    rw [hdeft, jsMin_eq, jsMax_eq]
    exact le_min (le_max_right _ _) zero_le_one
  have ht1 : t ≤ 1 := by
    rw [hdeft, jsMin_eq]
    exact min_le_right _ _
  have hcolor : getColorByHeight height maxHeight =
      if t < 0.1 then
        (lerp SAND.1 GRASS.1 (t / 0.1), lerp SAND.2.1 GRASS.2.1 (t / 0.1),
         lerp SAND.2.2 GRASS.2.2 (t / 0.1))
      else if t < 0.5 then
        (lerp GRASS.1 ROCK.1 ((t - 0.1) / 0.4), lerp GRASS.2.1 ROCK.2.1 ((t - 0.1) / 0.4),
         lerp GRASS.2.2 ROCK.2.2 ((t - 0.1) / 0.4))
      else
        (lerp ROCK.1 SNOW.1 ((t - 0.5) / 0.5), lerp ROCK.2.1 SNOW.2.1 ((t - 0.5) / 0.5),
         lerp ROCK.2.2 SNOW.2.2 ((t - 0.5) / 0.5)) := rfl
  rw [hcolor]
  split_ifs with h1 h2
  · have hl0 : 0 ≤ t / 0.1 := div_nonneg ht0 (by norm_num)
    have hl1 : t / 0.1 ≤ 1 := (div_le_one (by norm_num)).2 (le_of_lt h1)
    have b1 := lerp_bound SAND.1 GRASS.1 (t / 0.1) (by norm_num [SAND]) (by norm_num [SAND])
      (by norm_num [GRASS]) (by norm_num [GRASS]) hl0 hl1
    have b2 := lerp_bound SAND.2.1 GRASS.2.1 (t / 0.1) (by norm_num [SAND]) (by norm_num [SAND])
      (by norm_num [GRASS]) (by norm_num [GRASS]) hl0 hl1
    have b3 := lerp_bound SAND.2.2 GRASS.2.2 (t / 0.1) (by norm_num [SAND]) (by norm_num [SAND])
      (by norm_num [GRASS]) (by norm_num [GRASS]) hl0 hl1
    exact ⟨b1.1, b1.2, b2.1, b2.2, b3.1, b3.2⟩
  · have hge : (0.1 : ℚ) ≤ t := not_lt.1 h1
    have hl0 : 0 ≤ (t - 0.1) / 0.4 := div_nonneg (by linarith) (by norm_num)
    have hl1 : (t - 0.1) / 0.4 ≤ 1 := (div_le_one (by norm_num)).2 (by linarith)
    have b1 := lerp_bound GRASS.1 ROCK.1 ((t - 0.1) / 0.4) (by norm_num [GRASS]) (by norm_num [GRASS])
      (by norm_num [ROCK]) (by norm_num [ROCK]) hl0 hl1
    have b2 := lerp_bound GRASS.2.1 ROCK.2.1 ((t - 0.1) / 0.4) (by norm_num [GRASS]) (by norm_num [GRASS])
      (by norm_num [ROCK]) (by norm_num [ROCK]) hl0 hl1
    have b3 := lerp_bound GRASS.2.2 ROCK.2.2 ((t - 0.1) / 0.4) (by norm_num [GRASS]) (by norm_num [GRASS])
      (by norm_num [ROCK]) (by norm_num [ROCK]) hl0 hl1
    exact ⟨b1.1, b1.2, b2.1, b2.2, b3.1, b3.2⟩
  · have hge : (0.5 : ℚ) ≤ t := not_lt.1 h2
    have hl0 : 0 ≤ (t - 0.5) / 0.5 := div_nonneg (by linarith) (by norm_num)
    have hl1 : (t - 0.5) / 0.5 ≤ 1 := (div_le_one (by norm_num)).2 (by linarith)
    have b1 := lerp_bound ROCK.1 SNOW.1 ((t - 0.5) / 0.5) (by norm_num [ROCK]) (by norm_num [ROCK])
      (by norm_num [SNOW]) (by norm_num [SNOW]) hl0 hl1
    have b2 := lerp_bound ROCK.2.1 SNOW.2.1 ((t - 0.5) / 0.5) (by norm_num [ROCK]) (by norm_num [ROCK])
      (by norm_num [SNOW]) (by norm_num [SNOW]) hl0 hl1
    have b3 := lerp_bound ROCK.2.2 SNOW.2.2 ((t - 0.5) / 0.5) (by norm_num [ROCK]) (by norm_num [ROCK])
      (by norm_num [SNOW]) (by norm_num [SNOW]) hl0 hl1
    exact ⟨b1.1, b1.2, b2.1, b2.2, b3.1, b3.2⟩

theorem demFold_all_none (l : List (Option ℚ)) : ∀ acc : Option (ℚ × ℚ),
    (∀ o ∈ l, o = none) → l.foldl demStep acc = acc := by
  induction l with
  | nil => intro acc _; rfl
  | cons o l ih =>
    intro acc h
    rw [List.foldl_cons, h o (List.mem_cons_self o l)]
    exact ih acc fun o2 ho2 => h o2 (List.mem_cons_of_mem _ ho2)

theorem demFold_none_inv (l : List (Option ℚ)) : ∀ acc : Option (ℚ × ℚ),
    l.foldl demStep acc = none → acc = none ∧ ∀ o ∈ l, o = none := by
  induction l with
  | nil =>
    intro acc h
    exact ⟨h, fun o ho => absurd ho (List.not_mem_nil o)⟩
  | cons o l ih =>
    intro acc h
    rw [List.foldl_cons] at h
    obtain ⟨hacc1, hl⟩ := ih (demStep acc o) h
    cases o with
    | none =>
      refine ⟨hacc1, fun o2 ho2 => ?_⟩
      rcases List.mem_cons.1 ho2 with he | htail
      · exact he
      · exact hl o2 htail
    | some v =>
      exfalso
      cases acc with
      | none => exact Option.noConfusion hacc1
      | some p =>
        obtain ⟨m0, M0⟩ := p
        exact Option.noConfusion hacc1

theorem demFold_min_mono (l : List (Option ℚ)) : ∀ m0 M0 m M : ℚ,
    l.foldl demStep (some (m0, M0)) = some (m, M) → m ≤ m0 := by
  induction l with
  | nil =>
    intro m0 M0 m M h
    rw [List.foldl_nil] at h
    simp only [Option.some.injEq, Prod.mk.injEq] at h
    exact le_of_eq h.1.symm
  | cons o l ih =>
    intro m0 M0 m M h
    rw [List.foldl_cons] at h
    cases o with
    | none => exact ih m0 M0 m M h
    | some v =>
      have h' : List.foldl demStep
          (some ((if v < m0 then v else m0), (if M0 < v then v else M0))) l = some (m, M) := h
      have hrec := ih _ _ m M h'
      split_ifs at hrec with hv
      · linarith
      · exact hrec

theorem demFold_min_le (l : List (Option ℚ)) : ∀ (acc : Option (ℚ × ℚ)) (m M : ℚ),
    l.foldl demStep acc = some (m, M) → ∀ v : ℚ, some v ∈ l → m ≤ v := by
  induction l with
  | nil =>
    intro acc m M _ v hv
    exact absurd hv (List.not_mem_nil _)
  | cons o l ih =>
    intro acc m M h v hv
    rw [List.foldl_cons] at h
    rcases List.mem_cons.1 hv with hhead | htail
    · rw [← hhead] at h
      cases acc with
      | none =>
        have h' : List.foldl demStep (some (v, v)) l = some (m, M) := h
        exact demFold_min_mono l v v m M h'
      | some p =>
        obtain ⟨m0, M0⟩ := p
        have h' : List.foldl demStep
            (some ((if v < m0 then v else m0), (if M0 < v then v else M0))) l = some (m, M) := h
        have hrec := demFold_min_mono l _ _ m M h'
        split_ifs at hrec with hv0
        · exact hrec
        · linarith [not_lt.1 hv0]
    · exact ih (demStep acc o) m M h v htail

theorem demFold_min_mem (l : List (Option ℚ)) : ∀ (acc : Option (ℚ × ℚ)) (m M : ℚ),
    l.foldl demStep acc = some (m, M) →
    (∃ M0 : ℚ, acc = some (m, M0)) ∨ some m ∈ l := by
  induction l with
  | nil =>
    intro acc m M h
    rw [List.foldl_nil] at h
    exact Or.inl ⟨M, h⟩
  | cons o l ih =>
    intro acc m M h
    rw [List.foldl_cons] at h
    rcases ih (demStep acc o) m M h with ⟨M0, hacc1⟩ | hmem
    · cases o with
      | none => exact Or.inl ⟨M0, hacc1⟩
      | some v =>
        cases acc with
        | none =>
          have h2 : (some (v, v) : Option (ℚ × ℚ)) = some (m, M0) := hacc1
          simp only [Option.some.injEq, Prod.mk.injEq] at h2
          obtain ⟨hvm, _⟩ := h2
          subst hvm
          exact Or.inr (List.mem_cons_self _ _)
        | some p =>
          obtain ⟨m0, M0p⟩ := p
          have h2 : (some ((if v < m0 then v else m0), (if M0p < v then v else M0p)) :
              Option (ℚ × ℚ)) = some (m, M0) := hacc1
          simp only [Option.some.injEq, Prod.mk.injEq] at h2
          obtain ⟨hvm, _⟩ := h2
          by_cases hv0 : v < m0
          · rw [if_pos hv0] at hvm
            subst hvm
            exact Or.inr (List.mem_cons_self _ _)
          · rw [if_neg hv0] at hvm
            exact Or.inl ⟨M0p, by rw [hvm]⟩
    · exact Or.inr (List.mem_cons_of_mem o hmem)

/-- C5: for every raw raster whose output grid is non-empty, the
normalized grid has every value at least zero and contains the value zero,
so its minimum is exactly zero: invalid cells are filled with zero and
each valid cell is shifted down by the running minimum over valid
samples. -/
theorem processRawDemData_min_zero (rawData : List (Option ℚ)) (w h tms : ℕ)
    (hne : (processRawDemData rawData w h tms).data ≠ []) :
    (∀ v ∈ (processRawDemData rawData w h tms).data, 0 ≤ v) ∧
    0 ∈ (processRawDemData rawData w h tms).data := by
  have hdata : (processRawDemData rawData w h tms).data =
      (demSampled rawData w h tms).map (fun o => match o with
        | none => 0
        | some v => v - demMin rawData w h tms) := rfl
  have hsampled_ne : demSampled rawData w h tms ≠ [] := by
    intro hcon
    apply hne
    rw [hdata, hcon, List.map_nil]
  rcases hfold : (demSampled rawData w h tms).foldl demStep none with _ | ⟨m, M⟩
  · obtain ⟨_, hallnone⟩ := demFold_none_inv _ none hfold
    constructor
    · intro v hv
      rw [hdata] at hv
      obtain ⟨o, ho, hfo⟩ := List.mem_map.1 hv
      rw [hallnone o ho] at hfo
      rw [← hfo]
    · rcases hL : demSampled rawData w h tms with _ | ⟨o0, rest⟩
      · exact absurd hL hsampled_ne
      · rw [hdata]
        refine List.mem_map.2 ⟨o0, by rw [hL]; exact List.mem_cons_self _ _, ?_⟩
        rw [hallnone o0 (by rw [hL]; exact List.mem_cons_self _ _)]
  · have hmin : demMin rawData w h tms = m := by
      unfold demMin
      rw [hfold]
    constructor
    · intro v hv
      rw [hdata] at hv
      obtain ⟨o, ho, hfo⟩ := List.mem_map.1 hv
      cases o with
      | none => rw [← hfo]
      | some v0 =>
        have hle := demFold_min_le _ none m M hfold v0 ho
        rw [← hfo, hmin]
        simp only
        linarith
    · rcases demFold_min_mem _ none m M hfold with ⟨M0, habs⟩ | hmem
      · exact absurd habs (Option.noConfusion)
      · rw [hdata]
        refine List.mem_map.2 ⟨some m, hmem, ?_⟩
        simp only [hmin, sub_self]

theorem demSample_none_of_noData (rawData : List (Option ℚ))
    (hall : ∀ o ∈ rawData, isNoData o) (w h : ℕ) (scale : ℚ) (x y : ℕ) :
    demSample rawData w h scale x y = none := by
  rw [demSample]
  rcases he : rawData[(min (⌊(y : ℚ) * scale⌋).toNat (h - 1) * w +
      min (⌊(x : ℚ) * scale⌋).toNat (w - 1))]? with _ | o
  · rw [List.getD_eq_getElem?_getD, he]
    rfl
  · rw [List.getD_eq_getElem?_getD, he]
    have hmem : o ∈ rawData := List.getElem?_mem he
    cases o with
    | none => rfl
    | some v =>
      have hno : v < -12000 ∨ 12000 < v := hall (some v) hmem
      show (if v < -12000 ∨ 12000 < v then none else some v) = none
      rw [if_pos hno]

theorem demSampled_all_none (rawData : List (Option ℚ))
    (hall : ∀ o ∈ rawData, isNoData o) (w h tms : ℕ) :
    ∀ o ∈ demSampled rawData w h tms, o = none := by
  intro o ho
  obtain ⟨y, _, hin⟩ := List.mem_flatMap.1 ho
  obtain ⟨x, _, hsample⟩ := List.mem_map.1 hin
  rw [← hsample]
  exact demSample_none_of_noData rawData hall w h _ x y

/-- C6: for every raster composed entirely of no-data values, ingestion
does not fail: the normalized grid is all zeros, minHeight is 0 and
maxHeight is 10 (the degenerate fallback range). -/
theorem processRawDemData_all_nodata (rawData : List (Option ℚ)) (w h tms : ℕ)
    (hall : ∀ o ∈ rawData, isNoData o) :
    (∀ v ∈ (processRawDemData rawData w h tms).data, v = 0) ∧
    (processRawDemData rawData w h tms).minHeight = 0 ∧
    (processRawDemData rawData w h tms).maxHeight = 10 := by
  have hnone := demSampled_all_none rawData hall w h tms
  have hfold : (demSampled rawData w h tms).foldl demStep none = none :=
    demFold_all_none _ none hnone
  have hmin : (processRawDemData rawData w h tms).minHeight = 0 := by
    show demMin rawData w h tms = 0
    unfold demMin
    rw [hfold]
  have hmax : (processRawDemData rawData w h tms).maxHeight = 10 := by
    show demMaxVal rawData w h tms - demMin rawData w h tms = 10
    unfold demMaxVal demMin
    rw [hfold]
    norm_num
  refine ⟨?_, hmin, hmax⟩
  intro v hv
  obtain ⟨o, ho, hfo⟩ := List.mem_map.1 hv
  rw [hnone o ho] at hfo
  exact hfo.symm

theorem demNewWidth_one : demNewWidth 1 1 256 = 1 := by
  unfold demNewWidth demScale
  rw [if_neg (by norm_num)]
  norm_num [Int.floor_one]

theorem demNewHeight_one : demNewHeight 1 1 256 = 1 := by
  unfold demNewHeight demScale
  rw [if_neg (by norm_num)]
  norm_num [Int.floor_one]

theorem demSampled_demo :
    demSampled [some 5] 1 1 256 =
      [demSample [some 5] 1 1 (demScale 1 1 256) 0 0] := by
  rw [demSampled, demNewWidth_one, demNewHeight_one]
  rfl

theorem demo_data_ne : (processRawDemData [some 5] 1 1 256).data ≠ [] := by
  have hdata : (processRawDemData [some 5] 1 1 256).data =
      (demSampled [some 5] 1 1 256).map (fun o => match o with
        | none => 0
        | some v => v - demMin [some 5] 1 1 256) := rfl
  rw [hdata, demSampled_demo]
  simp

/-- Witness for C5 at the one-cell raster [5]: zero belongs to the
normalized output grid. -/
theorem processRawDemData_min_zero_witness :
    0 ∈ (processRawDemData [some 5] 1 1 256).data :=
  (processRawDemData_min_zero [some 5] 1 1 256 demo_data_ne).2

/-- Witness for C6 at the one-cell all-no-data raster. -/
theorem processRawDemData_all_nodata_witness :
    (processRawDemData [none] 1 1 256).minHeight = 0 ∧
    (processRawDemData [none] 1 1 256).maxHeight = 10 :=
  ⟨(processRawDemData_all_nodata [none] 1 1 256 (List.forall_mem_singleton.2 trivial)).2.1,
   (processRawDemData_all_nodata [none] 1 1 256 (List.forall_mem_singleton.2 trivial)).2.2⟩

theorem getColorByHeightF_fin (height maxHeight : ℚ) (hm : maxHeight ≠ 0) :
    getColorByHeightF height maxHeight =
      (JsFloat.fin (getColorByHeight height maxHeight).1,
       JsFloat.fin (getColorByHeight height maxHeight).2.1,
       JsFloat.fin (getColorByHeight height maxHeight).2.2) := by
  have hdiv : jsDivF height maxHeight = JsFloat.fin (height / maxHeight) := by
    rw [jsDivF, if_neg hm]
  have ht : jsMinF (jsMaxF (jsDivF height maxHeight) 0) 1 =
      JsFloat.fin (jsMin (jsMax (height / maxHeight) 0) 1) := by
    rw [hdiv]
    rfl
  set T := jsMin (jsMax (height / maxHeight) 0) 1 with hT
  have hcolor : getColorByHeight height maxHeight =
      if T < 0.1 then
        (lerp SAND.1 GRASS.1 (T / 0.1), lerp SAND.2.1 GRASS.2.1 (T / 0.1),
         lerp SAND.2.2 GRASS.2.2 (T / 0.1))
      else if T < 0.5 then
        (lerp GRASS.1 ROCK.1 ((T - 0.1) / 0.4), lerp GRASS.2.1 ROCK.2.1 ((T - 0.1) / 0.4),
         lerp GRASS.2.2 ROCK.2.2 ((T - 0.1) / 0.4))
      else
        (lerp ROCK.1 SNOW.1 ((T - 0.5) / 0.5), lerp ROCK.2.1 SNOW.2.1 ((T - 0.5) / 0.5),
         lerp ROCK.2.2 SNOW.2.2 ((T - 0.5) / 0.5)) := rfl
  unfold getColorByHeightF
  rw [ht, hcolor]
  by_cases h1 : T < 0.1
  · have hb1 : jsLtF (JsFloat.fin T) 0.1 = true := by
      rw [jsLtF]
      exact decide_eq_true h1
    rw [hb1, if_pos rfl, if_pos h1]
    rfl
  · have hb1 : jsLtF (JsFloat.fin T) 0.1 = false := by
      rw [jsLtF]
      exact decide_eq_false h1
    rw [hb1, if_neg Bool.false_ne_true, if_neg h1]
    by_cases h2 : T < 0.5
    · have hb2 : jsLtF (JsFloat.fin T) 0.5 = true := by
        rw [jsLtF]
        exact decide_eq_true h2
      rw [hb2, if_pos rfl, if_pos h2]
      rfl
    · have hb2 : jsLtF (JsFloat.fin T) 0.5 = false := by
        rw [jsLtF]
        exact decide_eq_false h2
      rw [hb2, if_neg Bool.false_ne_true, if_neg h2]
      rfl

/-- C9 counterexample: under JavaScript float semantics, at height 0 and
maxHeight 0 the normalization computes 0/0 = NaN, which propagates through
the Math.max and Math.min clamp, makes both band comparisons false, and
reaches the rock-to-snow blend, so every returned component is NaN; in
particular the red component is not a finite value in [0, 1].  The input
is reachable: a constant raster gives relative maxHeight 0 and all heights
0.  This refutes the claim quantified over every maxHeight. -/
theorem getColorByHeightF_nan_at_origin :
    getColorByHeightF 0 0 = (JsFloat.nan, JsFloat.nan, JsFloat.nan) ∧
    ¬ jsInUnit (getColorByHeightF 0 0).1 := by
  have hdiv : jsDivF 0 0 = JsFloat.nan := by
    rw [jsDivF, if_pos rfl, if_pos rfl]
  have h : getColorByHeightF 0 0 = (JsFloat.nan, JsFloat.nan, JsFloat.nan) := by
    unfold getColorByHeightF
    rw [hdiv]
    rfl
  refine ⟨h, ?_⟩
  rw [h]
  rintro ⟨v, hv, _, _⟩
  exact JsFloat.noConfusion hv

/-- C9 amended: for every height and every maxHeight except the single
input height = 0 and maxHeight = 0 (where JavaScript computes 0/0 = NaN
and returns NaN components), the triple returned by getColorByHeight
under JavaScript float semantics has each component a finite value in
[0, 1], computed by clamping the normalized height and piecewise-linearly
interpolating across the fixed sand, grass, rock and snow anchors.  For
nonzero maxHeight the float path agrees with the rational embedding; for
maxHeight = 0 with nonzero height the division gives a signed infinity,
which the clamp sends to 0 or 1 and the sand or snow anchor results. -/
theorem getColorByHeight_unit_components (height maxHeight : ℚ)
    (h : ¬ (height = 0 ∧ maxHeight = 0)) :
    jsInUnit (getColorByHeightF height maxHeight).1 ∧
    jsInUnit (getColorByHeightF height maxHeight).2.1 ∧
    jsInUnit (getColorByHeightF height maxHeight).2.2 := by
  by_cases hm : maxHeight = 0
  · have hh : height ≠ 0 := fun h0 => h ⟨h0, hm⟩
    subst hm
    rcases lt_or_gt_of_ne hh with hneg | hpos
    · have hdiv : jsDivF height 0 = JsFloat.ninf := by
        rw [jsDivF, if_pos rfl, if_neg hh, if_neg (not_lt.2 (le_of_lt hneg))]
      have ht : jsMinF (jsMaxF (jsDivF height 0) 0) 1 = JsFloat.fin 0 := by
        rw [hdiv]
        show JsFloat.fin (jsMin 0 1) = JsFloat.fin 0
        rw [jsMin, if_pos (by norm_num)]
      have hb1 : jsLtF (JsFloat.fin 0) 0.1 = true := by
        rw [jsLtF]
        exact decide_eq_true (by norm_num)
      unfold getColorByHeightF
      rw [ht, hb1, if_pos rfl]
      refine ⟨⟨lerp SAND.1 GRASS.1 (0 / 0.1), rfl, ?_, ?_⟩,
              ⟨lerp SAND.2.1 GRASS.2.1 (0 / 0.1), rfl, ?_, ?_⟩,
              ⟨lerp SAND.2.2 GRASS.2.2 (0 / 0.1), rfl, ?_, ?_⟩⟩ <;>
        norm_num [lerp, SAND, GRASS]
    · have hdiv : jsDivF height 0 = JsFloat.inf := by
        rw [jsDivF, if_pos rfl, if_neg hh, if_pos hpos]
      have ht : jsMinF (jsMaxF (jsDivF height 0) 0) 1 = JsFloat.fin 1 := by
        rw [hdiv]
        rfl
      have hb1 : jsLtF (JsFloat.fin 1) 0.1 = false := by
        rw [jsLtF]
        exact decide_eq_false (by norm_num)
      have hb2 : jsLtF (JsFloat.fin 1) 0.5 = false := by
        rw [jsLtF]
        exact decide_eq_false (by norm_num)
      unfold getColorByHeightF
      rw [ht, hb1, hb2, if_neg Bool.false_ne_true, if_neg Bool.false_ne_true]
      refine ⟨⟨lerp ROCK.1 SNOW.1 ((1 - 0.5) / 0.5), rfl, ?_, ?_⟩,
              ⟨lerp ROCK.2.1 SNOW.2.1 ((1 - 0.5) / 0.5), rfl, ?_, ?_⟩,
              ⟨lerp ROCK.2.2 SNOW.2.2 ((1 - 0.5) / 0.5), rfl, ?_, ?_⟩⟩ <;>
        norm_num [lerp, ROCK, SNOW]
  · rw [getColorByHeightF_fin height maxHeight hm]
    obtain ⟨b1, b2, b3, b4, b5, b6⟩ := ratColor_bounds height maxHeight
    exact ⟨⟨_, rfl, b1, b2⟩, ⟨_, rfl, b3, b4⟩, ⟨_, rfl, b5, b6⟩⟩

/-- Witness for the amended C9 at height 1 and maxHeight 2. -/
theorem getColorByHeight_unit_components_witness :
    ¬ ((1 : ℚ) = 0 ∧ (2 : ℚ) = 0) ∧
    (jsInUnit (getColorByHeightF 1 2).1 ∧ jsInUnit (getColorByHeightF 1 2).2.1 ∧
     jsInUnit (getColorByHeightF 1 2).2.2) :=
  ⟨by decide, getColorByHeight_unit_components 1 2 (by decide)⟩
